import Mathlib

/-! The constant table of the team generic-netlink family, `linux/if_team.h`.

The header `lib/libc/include/any-linux-any/linux/if_team.h` holds no functions:
it is an include guard, four value-carrying object-like macros and six
anonymous `enum` declarations.  The
embedding keeps the header as a syntax tree, declaration by declaration in file
order, and gives enumerators their values by the rule of the C language
(C11 6.7.2.2): an enumerator with `= e` has the value of the constant
expression `e`; one without has 0 when it is first in its list and the previous
enumerator's value plus 1 otherwise.  An enumerator is in scope as soon as it
is declared, so `X_MAX = (__X_MAX - 1)` reads the member right before it.
-/

namespace IfTeam

/-- Constant expressions as they occur in the header's enumerator
initialisers: integer literals, names of earlier enumerators, and binary
minus (`(__TEAM_ATTR_MAX - 1)`; parentheses carry no value of their own). -/
inductive CExpr where
  | num (n : Int)
  | ident (name : String)
  | minus (a b : CExpr)
  deriving Repr, DecidableEq

/-- One enumerator of an `enum { ... }` list: its name and the optional
`= expr` initialiser. -/
structure Enumerator where
  name : String
  init : Option CExpr
  deriving Repr, DecidableEq

/-- The replacement list of an object-like macro in this header: nothing (the
include guard `_LINUX_IF_TEAM_H`), one string literal, or one integer
literal. -/
inductive DefineBody where
  | empty
  | str (s : String)
  | int (n : Int)
  deriving Repr, DecidableEq

/-- A top-level item of the header: a `#define` or an anonymous `enum`. -/
inductive Decl where
  | define (name : String) (body : DefineBody)
  | enum (members : List Enumerator)
  deriving Repr

/-- The enumeration constants in scope, latest first. -/
abbrev Env := List (String × Int)

/-- Value of a constant expression; `none` when it names an undeclared
identifier. -/
def evalExpr (env : Env) : CExpr → Option Int
  | .num n => some n
  | .ident x => env.lookup x
  | .minus a b =>
    match evalExpr env a, evalExpr env b with
    | some x, some y => some (x - y)
    | _, _ => none

/-- Values of an enumerator list, left to right.  `next` is the value an
enumerator without initialiser receives (0 at the head of the list, the
previous value plus 1 afterwards); `env` holds what is already in scope.
The result lists the members in declaration order. -/
def evalEnumerators (env : Env) (next : Int) : List Enumerator → Option (List (String × Int))
  | [] => some []
  | m :: ms =>
    let v? : Option Int :=
      match m.init with
      | none => some next
      | some e => evalExpr env e
    match v? with
    | none => none
    | some v =>
      match evalEnumerators ((m.name, v) :: env) (v + 1) ms with
      | none => none
      | some rest => some ((m.name, v) :: rest)

/-- An enum declaration, evaluated in the scope `env`. -/
def evalEnum (env : Env) (members : List Enumerator) : Option (List (String × Int)) :=
  evalEnumerators env 0 members

/-- An enumerator without initialiser. -/
def plain (name : String) : Enumerator := ⟨name, none⟩

/-- The enumerator `name = (ref - 1)`, the shape of every `X_MAX` line. -/
def maxOf (name ref : String) : Enumerator :=
  ⟨name, some (.minus (.ident ref) (.num 1))⟩

/-! ## The header, transcribed -/

/-- Lines 15-23. -/
def enum_TEAM_ATTR : List Enumerator :=
  [ plain "TEAM_ATTR_UNSPEC",
    plain "TEAM_ATTR_TEAM_IFINDEX",
    plain "TEAM_ATTR_LIST_OPTION",
    plain "TEAM_ATTR_LIST_PORT",
    plain "__TEAM_ATTR_MAX",
    maxOf "TEAM_ATTR_MAX" "__TEAM_ATTR_MAX" ]

/-- Lines 25-31. -/
def enum_TEAM_ATTR_ITEM_OPTION : List Enumerator :=
  [ plain "TEAM_ATTR_ITEM_OPTION_UNSPEC",
    plain "TEAM_ATTR_ITEM_OPTION",
    plain "__TEAM_ATTR_ITEM_OPTION_MAX",
    maxOf "TEAM_ATTR_ITEM_OPTION_MAX" "__TEAM_ATTR_ITEM_OPTION_MAX" ]

/-- Lines 33-45. -/
def enum_TEAM_ATTR_OPTION : List Enumerator :=
  [ plain "TEAM_ATTR_OPTION_UNSPEC",
    plain "TEAM_ATTR_OPTION_NAME",
    plain "TEAM_ATTR_OPTION_CHANGED",
    plain "TEAM_ATTR_OPTION_TYPE",
    plain "TEAM_ATTR_OPTION_DATA",
    plain "TEAM_ATTR_OPTION_REMOVED",
    plain "TEAM_ATTR_OPTION_PORT_IFINDEX",
    plain "TEAM_ATTR_OPTION_ARRAY_INDEX",
    plain "__TEAM_ATTR_OPTION_MAX",
    maxOf "TEAM_ATTR_OPTION_MAX" "__TEAM_ATTR_OPTION_MAX" ]

/-- Lines 47-53. -/
def enum_TEAM_ATTR_ITEM_PORT : List Enumerator :=
  [ plain "TEAM_ATTR_ITEM_PORT_UNSPEC",
    plain "TEAM_ATTR_ITEM_PORT",
    plain "__TEAM_ATTR_ITEM_PORT_MAX",
    maxOf "TEAM_ATTR_ITEM_PORT_MAX" "__TEAM_ATTR_ITEM_PORT_MAX" ]

/-- Lines 55-66. -/
def enum_TEAM_ATTR_PORT : List Enumerator :=
  [ plain "TEAM_ATTR_PORT_UNSPEC",
    plain "TEAM_ATTR_PORT_IFINDEX",
    plain "TEAM_ATTR_PORT_CHANGED",
    plain "TEAM_ATTR_PORT_LINKUP",
    plain "TEAM_ATTR_PORT_SPEED",
    plain "TEAM_ATTR_PORT_DUPLEX",
    plain "TEAM_ATTR_PORT_REMOVED",
    plain "__TEAM_ATTR_PORT_MAX",
    maxOf "TEAM_ATTR_PORT_MAX" "__TEAM_ATTR_PORT_MAX" ]

/-- Lines 68-76. -/
def enum_TEAM_CMD : List Enumerator :=
  [ plain "TEAM_CMD_NOOP",
    plain "TEAM_CMD_OPTIONS_SET",
    plain "TEAM_CMD_OPTIONS_GET",
    plain "TEAM_CMD_PORT_LIST_GET",
    plain "__TEAM_CMD_MAX",
    maxOf "TEAM_CMD_MAX" "__TEAM_CMD_MAX" ]

/-- The whole header between `#ifndef _LINUX_IF_TEAM_H` and `#endif`, in file
order (lines 7-76). -/
def if_team_h : List Decl :=
  [ .define "_LINUX_IF_TEAM_H" .empty,
    .define "TEAM_GENL_NAME" (.str "team"),
    .define "TEAM_GENL_VERSION" (.int 1),
    .define "TEAM_STRING_MAX_LEN" (.int 32),
    .define "TEAM_GENL_CHANGE_EVENT_MC_GRP_NAME" (.str "change_event"),
    .enum enum_TEAM_ATTR,
    .enum enum_TEAM_ATTR_ITEM_OPTION,
    .enum enum_TEAM_ATTR_OPTION,
    .enum enum_TEAM_ATTR_ITEM_PORT,
    .enum enum_TEAM_ATTR_PORT,
    .enum enum_TEAM_CMD ]

/-! ## Reading the header -/

/-- The enum declarations of a header, in file order. -/
def enumDecls : List Decl → List (List Enumerator)
  | [] => []
  | .define _ _ :: ds => enumDecls ds
  | .enum ms :: ds => ms :: enumDecls ds

/-- The `#define`s that carry a value (a non-empty replacement list), in file
order; the include guard `#define _LINUX_IF_TEAM_H` has none and is left
out. -/
def valueDefines : List Decl → List (String × DefineBody)
  | [] => []
  | .define _ .empty :: ds => valueDefines ds
  | .define name body :: ds => (name, body) :: valueDefines ds
  | .enum _ :: ds => valueDefines ds

/-- Every enum of a header evaluated in turn, one table of `(name, value)`
pairs per enum.  Enumeration constants have file scope, so the members of an
enum stay visible to the enums after it. -/
def evalDecls (env : Env) : List Decl → Option (List (List (String × Int)))
  | [] => some []
  | .define _ _ :: ds => evalDecls env ds
  | .enum ms :: ds =>
    match evalEnum env ms with
    | none => none
    | some t =>
      match evalDecls (t.reverse ++ env) ds with
      | none => none
      | some ts => some (t :: ts)

/-- The tables of all enums of a header, starting from the empty scope. -/
def enumTables (h : List Decl) : Option (List (List (String × Int))) :=
  evalDecls [] h

/-- The table of the `i`-th enum declaration of a header (counted from 0). -/
def enumTable (h : List Decl) (i : Nat) : Option (List (String × Int)) :=
  match enumTables h with
  | none => none
  | some ts => ts.get? i

/-- The value an enumeration constant of the header denotes. -/
def enumConstant (h : List Decl) (name : String) : Option Int :=
  match enumTables h with
  | none => none
  | some ts => ts.flatten.lookup name

/-- The replacement list of a value-carrying `#define` of the header. -/
def defineValue (h : List Decl) (name : String) : Option DefineBody :=
  (valueDefines h).lookup name

/-- Length in bytes of a string-literal replacement list (the terminating NUL
of the C object not counted). -/
def defineByteLength (h : List Decl) (name : String) : Option Nat :=
  match defineValue h name with
  | some (.str s) => some s.utf8ByteSize
  | _ => none

/-- The bytes of a string-literal replacement list, in order. -/
def defineBytes (h : List Decl) (name : String) : Option (List UInt8) :=
  match defineValue h name with
  | some (.str s) => some s.toUTF8.data.toList
  | _ => none

/-! ## Vocabulary of the specification -/

/-- Holds when `suffix` ends `name`. -/
def endsIn (suffix name : String) : Bool :=
  suffix.data.isSuffixOf name.data

/-- The sentinel of an enumeration: the member named `*_UNSPEC`. -/
def isUnspec (name : String) : Bool := endsIn "_UNSPEC" name

/-- The two max entries of an enumeration, `__X_MAX` and `X_MAX`. -/
def isMaxEntry (name : String) : Bool := endsIn "_MAX" name

/-- The internal max entry `__X_MAX`. -/
def isUnderscoreMax (name : String) : Bool :=
  isMaxEntry name && "__".data.isPrefixOf name.data

/-- The real members of an enumeration: neither the `*_UNSPEC` sentinel nor
one of the two max entries. -/
def realMembers (t : List (String × Int)) : List (String × Int) :=
  t.filter fun m => !isUnspec m.1 && !isMaxEntry m.1

/-- The members declared before `__X_MAX`, the index-0 member included. -/
def membersBeforeMax (t : List (String × Int)) : List (String × Int) :=
  t.takeWhile fun m => !isMaxEntry m.1

/-- The value of `__X_MAX`. -/
def underscoreMax (t : List (String × Int)) : Option Int :=
  (t.find? fun m => isUnderscoreMax m.1).map (·.2)

/-- The value of `X_MAX`. -/
def xMax (t : List (String × Int)) : Option Int :=
  (t.find? fun m => isMaxEntry m.1 && !isUnderscoreMax m.1).map (·.2)

/-- The names of the members whose value is 0. -/
def zeroMembers (t : List (String × Int)) : List String :=
  (t.filter fun m => m.2 == 0).map (·.1)

/-! ## The enumerator rule in general -/

/-- The values `k, k+1, ...` given to a run of names. -/
def numberFrom (k : Int) : List String → List (String × Int)
  | [] => []
  | n :: ns => (n, k) :: numberFrom (k + 1) ns

theorem numberFrom_length (k : Int) (ns : List String) :
    (numberFrom k ns).length = ns.length := by
  induction ns generalizing k with
  | nil => rfl
  | cons n ns ih => simp [numberFrom, ih]

/-- One step of the rule at an enumerator without initialiser: it takes the
value `k` and the rest of the list continues from `k + 1` with it in scope. -/
theorem evalEnumerators_cons_plain (env : Env) (k : Int) (n : String) (ms : List Enumerator) :
    evalEnumerators env k (plain n :: ms) =
      (evalEnumerators ((n, k) :: env) (k + 1) ms).map fun rest => (n, k) :: rest := by
  simp only [evalEnumerators, plain]
  cases evalEnumerators ((n, k) :: env) (k + 1) ms <;> rfl

/-- A run of enumerators without initialisers counts upwards from `k`,
whatever is in scope: evaluation never fails on it. -/
theorem evalEnumerators_plain (env : Env) (k : Int) (ns : List String) :
    evalEnumerators env k (ns.map plain) = some (numberFrom k ns) := by
  induction ns generalizing env k with
  | nil => rfl
  | cons n ns ih => simp [evalEnumerators_cons_plain, numberFrom, ih]

/-- The shape shared by all six enums of the header, for any member names:
after `ns` the entry `__X_MAX` receives the number of members declared before
it, and `X_MAX = (__X_MAX - 1)` one less. -/
theorem evalEnum_max_tail (env : Env) (ns : List String) (u x : String) :
    evalEnum env (ns.map plain ++ [plain u, maxOf x u]) =
      some (numberFrom 0 ns ++ [(u, (ns.length : Int)), (x, (ns.length : Int) - 1)]) := by
  have key : ∀ (ms : List String) (e : Env) (k : Int),
      evalEnumerators e k (ms.map plain ++ [plain u, maxOf x u]) =
        some (numberFrom k ms ++ [(u, k + ms.length), (x, k + ms.length - 1)]) := by
    intro ms
    induction ms with
    | nil =>
      intro e k
      simp [evalEnumerators, plain, maxOf, evalExpr, numberFrom, List.lookup]
    | cons m ms ih =>
      intro e k
      simp [evalEnumerators_cons_plain, numberFrom, ih, add_assoc]
      omega
  simpa [evalEnum] using key ns env 0

/-! ## The constants of `if_team.h` -/

/-- C1: the command enumeration (the sixth enum of the header) evaluates to
TEAM_CMD_NOOP = 0, TEAM_CMD_OPTIONS_SET = 1, TEAM_CMD_OPTIONS_GET = 2,
TEAM_CMD_PORT_LIST_GET = 3, __TEAM_CMD_MAX = 4, TEAM_CMD_MAX = 3, declared in
that order, and each name denotes that value in the header. -/
theorem cmd_wire_values :
    (enumDecls if_team_h).get? 5 = some enum_TEAM_CMD ∧
    enumTable if_team_h 5 =
      some [("TEAM_CMD_NOOP", 0), ("TEAM_CMD_OPTIONS_SET", 1), ("TEAM_CMD_OPTIONS_GET", 2),
            ("TEAM_CMD_PORT_LIST_GET", 3), ("__TEAM_CMD_MAX", 4), ("TEAM_CMD_MAX", 3)] ∧
    enumConstant if_team_h "TEAM_CMD_NOOP" = some 0 ∧
    enumConstant if_team_h "TEAM_CMD_OPTIONS_SET" = some 1 ∧
    enumConstant if_team_h "TEAM_CMD_OPTIONS_GET" = some 2 ∧
    enumConstant if_team_h "TEAM_CMD_PORT_LIST_GET" = some 3 ∧
    enumConstant if_team_h "__TEAM_CMD_MAX" = some 4 ∧
    enumConstant if_team_h "TEAM_CMD_MAX" = some 3 := by
  decide

/-- C2: the option-attribute enumeration (the third enum of the header)
evaluates to TEAM_ATTR_OPTION_UNSPEC = 0, NAME = 1, CHANGED = 2, TYPE = 3,
DATA = 4, REMOVED = 5, PORT_IFINDEX = 6, ARRAY_INDEX = 7,
__TEAM_ATTR_OPTION_MAX = 8, TEAM_ATTR_OPTION_MAX = 7, declared in that order,
and each name denotes that value in the header. -/
theorem option_attr_wire_values :
    (enumDecls if_team_h).get? 2 = some enum_TEAM_ATTR_OPTION ∧
    enumTable if_team_h 2 =
      some [("TEAM_ATTR_OPTION_UNSPEC", 0), ("TEAM_ATTR_OPTION_NAME", 1),
            ("TEAM_ATTR_OPTION_CHANGED", 2), ("TEAM_ATTR_OPTION_TYPE", 3),
            ("TEAM_ATTR_OPTION_DATA", 4), ("TEAM_ATTR_OPTION_REMOVED", 5),
            ("TEAM_ATTR_OPTION_PORT_IFINDEX", 6), ("TEAM_ATTR_OPTION_ARRAY_INDEX", 7),
            ("__TEAM_ATTR_OPTION_MAX", 8), ("TEAM_ATTR_OPTION_MAX", 7)] ∧
    enumConstant if_team_h "TEAM_ATTR_OPTION_UNSPEC" = some 0 ∧
    enumConstant if_team_h "TEAM_ATTR_OPTION_NAME" = some 1 ∧
    enumConstant if_team_h "TEAM_ATTR_OPTION_CHANGED" = some 2 ∧
    enumConstant if_team_h "TEAM_ATTR_OPTION_TYPE" = some 3 ∧
    enumConstant if_team_h "TEAM_ATTR_OPTION_DATA" = some 4 ∧
    enumConstant if_team_h "TEAM_ATTR_OPTION_REMOVED" = some 5 ∧
    enumConstant if_team_h "TEAM_ATTR_OPTION_PORT_IFINDEX" = some 6 ∧
    enumConstant if_team_h "TEAM_ATTR_OPTION_ARRAY_INDEX" = some 7 ∧
    enumConstant if_team_h "__TEAM_ATTR_OPTION_MAX" = some 8 ∧
    enumConstant if_team_h "TEAM_ATTR_OPTION_MAX" = some 7 := by
  decide

/-- C3: the port-attribute enumeration (the fifth enum of the header)
evaluates to TEAM_ATTR_PORT_UNSPEC = 0, IFINDEX = 1, CHANGED = 2, LINKUP = 3,
SPEED = 4, DUPLEX = 5, REMOVED = 6, __TEAM_ATTR_PORT_MAX = 7,
TEAM_ATTR_PORT_MAX = 6, declared in that order, and each name denotes that
value in the header. -/
theorem port_attr_wire_values :
    (enumDecls if_team_h).get? 4 = some enum_TEAM_ATTR_PORT ∧
    enumTable if_team_h 4 =
      some [("TEAM_ATTR_PORT_UNSPEC", 0), ("TEAM_ATTR_PORT_IFINDEX", 1),
            ("TEAM_ATTR_PORT_CHANGED", 2), ("TEAM_ATTR_PORT_LINKUP", 3),
            ("TEAM_ATTR_PORT_SPEED", 4), ("TEAM_ATTR_PORT_DUPLEX", 5),
            ("TEAM_ATTR_PORT_REMOVED", 6), ("__TEAM_ATTR_PORT_MAX", 7),
            ("TEAM_ATTR_PORT_MAX", 6)] ∧
    enumConstant if_team_h "TEAM_ATTR_PORT_UNSPEC" = some 0 ∧
    enumConstant if_team_h "TEAM_ATTR_PORT_IFINDEX" = some 1 ∧
    enumConstant if_team_h "TEAM_ATTR_PORT_CHANGED" = some 2 ∧
    enumConstant if_team_h "TEAM_ATTR_PORT_LINKUP" = some 3 ∧
    enumConstant if_team_h "TEAM_ATTR_PORT_SPEED" = some 4 ∧
    enumConstant if_team_h "TEAM_ATTR_PORT_DUPLEX" = some 5 ∧
    enumConstant if_team_h "TEAM_ATTR_PORT_REMOVED" = some 6 ∧
    enumConstant if_team_h "__TEAM_ATTR_PORT_MAX" = some 7 ∧
    enumConstant if_team_h "TEAM_ATTR_PORT_MAX" = some 6 := by
  decide

/-- C4: the top-level attribute enumeration (the first enum of the header)
evaluates to TEAM_ATTR_UNSPEC = 0, TEAM_ATTR_TEAM_IFINDEX = 1,
TEAM_ATTR_LIST_OPTION = 2, TEAM_ATTR_LIST_PORT = 3, __TEAM_ATTR_MAX = 4,
TEAM_ATTR_MAX = 3, declared in that order, and each name denotes that value
in the header. -/
theorem top_attr_wire_values :
    (enumDecls if_team_h).get? 0 = some enum_TEAM_ATTR ∧
    enumTable if_team_h 0 =
      some [("TEAM_ATTR_UNSPEC", 0), ("TEAM_ATTR_TEAM_IFINDEX", 1),
            ("TEAM_ATTR_LIST_OPTION", 2), ("TEAM_ATTR_LIST_PORT", 3),
            ("__TEAM_ATTR_MAX", 4), ("TEAM_ATTR_MAX", 3)] ∧
    enumConstant if_team_h "TEAM_ATTR_UNSPEC" = some 0 ∧
    enumConstant if_team_h "TEAM_ATTR_TEAM_IFINDEX" = some 1 ∧
    enumConstant if_team_h "TEAM_ATTR_LIST_OPTION" = some 2 ∧
    enumConstant if_team_h "TEAM_ATTR_LIST_PORT" = some 3 ∧
    enumConstant if_team_h "__TEAM_ATTR_MAX" = some 4 ∧
    enumConstant if_team_h "TEAM_ATTR_MAX" = some 3 := by
  decide

/-- C5: both list-item wrapper enumerations (the second and fourth enum of
the header) are an unspecified member with value 0, one entry member with
value 1, then __X_MAX = 2 and X_MAX = 1, and each name denotes that value in
the header. -/
theorem item_wrapper_wire_values :
    (enumDecls if_team_h).get? 1 = some enum_TEAM_ATTR_ITEM_OPTION ∧
    (enumDecls if_team_h).get? 3 = some enum_TEAM_ATTR_ITEM_PORT ∧
    enumTable if_team_h 1 =
      some [("TEAM_ATTR_ITEM_OPTION_UNSPEC", 0), ("TEAM_ATTR_ITEM_OPTION", 1),
            ("__TEAM_ATTR_ITEM_OPTION_MAX", 2), ("TEAM_ATTR_ITEM_OPTION_MAX", 1)] ∧
    enumTable if_team_h 3 =
      some [("TEAM_ATTR_ITEM_PORT_UNSPEC", 0), ("TEAM_ATTR_ITEM_PORT", 1),
            ("__TEAM_ATTR_ITEM_PORT_MAX", 2), ("TEAM_ATTR_ITEM_PORT_MAX", 1)] ∧
    enumConstant if_team_h "TEAM_ATTR_ITEM_OPTION_UNSPEC" = some 0 ∧
    enumConstant if_team_h "TEAM_ATTR_ITEM_OPTION" = some 1 ∧
    enumConstant if_team_h "__TEAM_ATTR_ITEM_OPTION_MAX" = some 2 ∧
    enumConstant if_team_h "TEAM_ATTR_ITEM_OPTION_MAX" = some 1 ∧
    enumConstant if_team_h "TEAM_ATTR_ITEM_PORT_UNSPEC" = some 0 ∧
    enumConstant if_team_h "TEAM_ATTR_ITEM_PORT" = some 1 ∧
    enumConstant if_team_h "__TEAM_ATTR_ITEM_PORT_MAX" = some 2 ∧
    enumConstant if_team_h "TEAM_ATTR_ITEM_PORT_MAX" = some 1 := by
  decide

/-- C6: the value-carrying defines of the header are exactly four:
TEAM_GENL_NAME is the string "team" (4 bytes: t e a m), TEAM_GENL_VERSION is
1, TEAM_STRING_MAX_LEN is 32 and TEAM_GENL_CHANGE_EVENT_MC_GRP_NAME is the
string "change_event" (12 bytes). -/
theorem define_constants :
    valueDefines if_team_h =
      [("TEAM_GENL_NAME", .str "team"), ("TEAM_GENL_VERSION", .int 1),
       ("TEAM_STRING_MAX_LEN", .int 32),
       ("TEAM_GENL_CHANGE_EVENT_MC_GRP_NAME", .str "change_event")] ∧
    defineValue if_team_h "TEAM_GENL_NAME" = some (.str "team") ∧
    defineByteLength if_team_h "TEAM_GENL_NAME" = some 4 ∧
    defineBytes if_team_h "TEAM_GENL_NAME" = some [0x74, 0x65, 0x61, 0x6d] ∧
    defineValue if_team_h "TEAM_GENL_CHANGE_EVENT_MC_GRP_NAME" = some (.str "change_event") ∧
    defineByteLength if_team_h "TEAM_GENL_CHANGE_EVENT_MC_GRP_NAME" = some 12 ∧
    defineBytes if_team_h "TEAM_GENL_CHANGE_EVENT_MC_GRP_NAME" =
      some [0x63, 0x68, 0x61, 0x6e, 0x67, 0x65, 0x5f, 0x65, 0x76, 0x65, 0x6e, 0x74] ∧
    defineValue if_team_h "TEAM_GENL_VERSION" = some (.int 1) ∧
    defineValue if_team_h "TEAM_STRING_MAX_LEN" = some (.int 32) := by
  decide

/-- C7, as stated, fails on the command enumeration: none of its members is
named `*_UNSPEC`, so TEAM_CMD_NOOP, TEAM_CMD_OPTIONS_SET, TEAM_CMD_OPTIONS_GET
and TEAM_CMD_PORT_LIST_GET are four real members, while TEAM_CMD_MAX is 3. -/
theorem cmd_max_differs_from_real_count :
    ∃ t, enumTable if_team_h 5 = some t ∧
      realMembers t =
        [("TEAM_CMD_NOOP", 0), ("TEAM_CMD_OPTIONS_SET", 1), ("TEAM_CMD_OPTIONS_GET", 2),
         ("TEAM_CMD_PORT_LIST_GET", 3)] ∧
      xMax t = some 3 ∧
      xMax t ≠ some ((realMembers t).length : Int) :=
  ⟨[("TEAM_CMD_NOOP", 0), ("TEAM_CMD_OPTIONS_SET", 1), ("TEAM_CMD_OPTIONS_GET", 2),
    ("TEAM_CMD_PORT_LIST_GET", 3), ("__TEAM_CMD_MAX", 4), ("TEAM_CMD_MAX", 3)],
   by decide, by decide, by decide, by decide⟩

/-- C7, amended: in each of the five attribute enumerations (the first five
enums of the header, each with one `*_UNSPEC` member) X_MAX equals the number
of real members; the command enumeration has no `*_UNSPEC` member and its
TEAM_CMD_MAX is the number of real members minus one. -/
theorem attr_max_eq_real_count :
    ∃ ts, enumTables if_team_h = some ts ∧ ts.length = 6 ∧
      (∀ t ∈ ts.take 5,
        (t.filter fun m => isUnspec m.1).length = 1 ∧
        xMax t = some ((realMembers t).length : Int)) ∧
      (∀ t ∈ ts.drop 5,
        (t.filter fun m => isUnspec m.1).length = 0 ∧
        xMax t = some ((realMembers t).length - 1 : Int)) :=
  ⟨_, rfl, by decide, by decide, by decide⟩

/-- C8: in each of the six enumerations, with the member count taken as the
number of members declared before `__X_MAX` (the index-0 member included),
`__X_MAX` equals the member count, X_MAX equals the member count minus one,
and X_MAX is the value of the last member declared before `__X_MAX`; the two
max entries are all that follows those members. -/
theorem max_eq_member_count_minus_one :
    ∃ ts, enumTables if_team_h = some ts ∧ ts.length = 6 ∧
      ∀ t ∈ ts,
        underscoreMax t = some ((membersBeforeMax t).length : Int) ∧
        xMax t = some ((membersBeforeMax t).length - 1 : Int) ∧
        (membersBeforeMax t).getLast?.map (·.2) = xMax t ∧
        (t.drop (membersBeforeMax t).length).map (fun m => (isMaxEntry m.1, isUnderscoreMax m.1)) =
          [(true, true), (true, false)] :=
  ⟨_, rfl, by decide, by decide⟩

/-- C9, as stated, fails on the command enumeration: its only member with
value 0 is TEAM_CMD_NOOP, whose name does not end in `_UNSPEC`, and its first
real member is that same TEAM_CMD_NOOP, with value 0 and not 1. -/
theorem cmd_zero_member_is_noop :
    ∃ t, enumTable if_team_h 5 = some t ∧
      zeroMembers t = ["TEAM_CMD_NOOP"] ∧
      isUnspec "TEAM_CMD_NOOP" = false ∧
      (realMembers t).head? = some ("TEAM_CMD_NOOP", 0) ∧
      (realMembers t).head?.map (·.2) ≠ some 1 :=
  ⟨[("TEAM_CMD_NOOP", 0), ("TEAM_CMD_OPTIONS_SET", 1), ("TEAM_CMD_OPTIONS_GET", 2),
    ("TEAM_CMD_PORT_LIST_GET", 3), ("__TEAM_CMD_MAX", 4), ("TEAM_CMD_MAX", 3)],
   by decide, by decide, by decide, by decide, by decide⟩

/-- C9, amended: in each of the five attribute enumerations exactly one member
has value 0, it is the first declared one and its name ends in `_UNSPEC`, and
the first real member has value 1; in the command enumeration the one member
with value 0 is TEAM_CMD_NOOP and the member declared right after it,
TEAM_CMD_OPTIONS_SET, has value 1. -/
theorem attr_zero_member_is_unspec :
    ∃ ts, enumTables if_team_h = some ts ∧ ts.length = 6 ∧
      (∀ t ∈ ts.take 5,
        (zeroMembers t).length = 1 ∧
        (zeroMembers t).head? = t.head?.map (·.1) ∧
        (∀ n ∈ zeroMembers t, isUnspec n = true) ∧
        (realMembers t).head?.map (·.2) = some 1) ∧
      (∀ t ∈ ts.drop 5,
        zeroMembers t = ["TEAM_CMD_NOOP"] ∧
        t.get? 1 = some ("TEAM_CMD_OPTIONS_SET", 1)) :=
  ⟨_, rfl, by decide, by decide, by decide⟩

/-- C10, as stated, fails: the header does not have 5 enum declarations and 2
value-carrying defines. -/
theorem not_five_enums_two_defines :
    ¬ ((enumDecls if_team_h).length = 5 ∧ (valueDefines if_team_h).length = 2) := by
  decide

/-- C10, amended: the header has exactly six enum declarations and exactly
four value-carrying defines (the include guard excluded), and nothing else
besides the include guard. -/
theorem six_enums_four_defines :
    (enumDecls if_team_h).length = 6 ∧
    (valueDefines if_team_h).length = 4 ∧
    if_team_h.length = 1 + 4 + 6 := by
  decide

end IfTeam
